import Mathlib

/-!
# Verification of the ro.py presence/shout mapping layer

A shallow embedding of `src/roblox/presence.py` and `src/roblox/shout.py`.

JSON payloads are modelled by an inductive `Json` type; Python dictionaries by
association lists (`Dict`).  Python exceptions raised while mapping a payload
are modelled by the `MapError` type, whose constructors correspond one-to-one
to the raise sites of the code:

* `MapError.missingField k` — Python `KeyError(k)` from `data[k]` /
  `response.json()[k]` (the spec's `MissingRequiredField`, and its
  `MalformedResponse` when `k = "userPresences"` at the response level);
* `MapError.invalidEnumValue v` — Python `ValueError` from `PresenceType(v)`
  (the spec's `InvalidEnumValue`);
* `MapError.malformedTimestamp s` — `dateutil.parser.ParserError` from
  `parse(s)` (the spec's `MalformedTimestamp`);
* `MapError.typeError` — Python `TypeError` (indexing / iterating / `int()`
  on a value of the wrong type).

The timestamp parser `dateutil.parser.parse` is an external collaborator and
is kept abstract: every mapping function is parametric in a parser
`p : String → Option TS` into an arbitrary timestamp type `TS`, so theorems
about stored timestamps hold for the real parser by instantiation.  Likewise
the client object is an arbitrary type `Ctx`: the mapping layer only threads
it through, which the development makes explicit.
-/

/-- A JSON value, the shape of data consumed by the mapping layer. -/
inductive Json where
  | null : Json
  | bool : Bool → Json
  | int : Int → Json
  | str : String → Json
  | arr : List Json → Json
  | obj : List (String × Json) → Json

/-- A Python `dict` holding parsed JSON, as passed to `Presence.__init__` and
`Shout.__init__` (`data: dict`). -/
abbrev Dict := List (String × Json)

/-- First value stored under key `k`, Python `d.get(k)` when the result is
distinguished from a stored `None` (see `jgetD`). -/
def Dict.lookup (d : Dict) (k : String) : Option Json :=
  match d with
  | [] => none
  | (k', v) :: rest => if k' = k then some v else Dict.lookup rest k

/-- Python truthiness of a JSON value: `None`, `False`, `0`, `""`, `[]` and
`{}` are falsy, everything else truthy. -/
def truthy : Json → Bool
  | Json.null => false
  | Json.bool b => b
  | Json.int n => n != 0
  | Json.str s => s != ""
  | Json.arr l => !l.isEmpty
  | Json.obj l => !l.isEmpty

/-- Python `data.get(k)`: `None` both when the key is absent and when the
stored value is JSON `null` (Python `None`). -/
def jgetD (d : Dict) (k : String) : Json :=
  (d.lookup k).getD Json.null

/-- Errors raised while mapping, mirroring the Python raise sites (see the
module docstring for the correspondence with the spec's error taxonomy). -/
inductive MapError where
  | missingField : String → MapError
  | invalidEnumValue : Json → MapError
  | malformedTimestamp : String → MapError
  | typeError : MapError

/-- Python `data[k]` on a dict: the stored value, or `KeyError(k)`. -/
def pyGetItem (d : Dict) (k : String) : Except MapError Json :=
  match d.lookup k with
  | some v => Except.ok v
  | none => Except.error (MapError.missingField k)

/-- Python `j[k]` string indexing on an arbitrary JSON value: `KeyError` on a
dict without the key, `TypeError` on a non-dict. -/
def pyIndex (j : Json) (k : String) : Except MapError Json :=
  match j with
  | Json.obj kvs => pyGetItem kvs k
  | _ => Except.error MapError.typeError

/-- Python iteration (`for x in j`): lists yield their elements, strings
their one-character substrings, dicts their keys; other values raise
`TypeError`. -/
def pyIter (j : Json) : Except MapError (List Json) :=
  match j with
  | Json.arr l => Except.ok l
  | Json.str s => Except.ok (s.toList.map (fun c => Json.str (String.mk [c])))
  | Json.obj kvs => Except.ok (kvs.map (fun kv => Json.str kv.1))
  | _ => Except.error MapError.typeError

/-- `dateutil.parser.parse` applied to a JSON value: delegates to the abstract
string parser `p`, raising `ParserError` (`malformedTimestamp`) when `p`
rejects the string and `TypeError` on a non-string argument. -/
def pyParse {TS : Type} (p : String → Option TS) : Json → Except MapError TS
  | Json.str s =>
      match p s with
      | some t => Except.ok t
      | none => Except.error (MapError.malformedTimestamp s)
  | _ => Except.error MapError.typeError

/-- `class PresenceType(IntEnum)`: `offline = 0`, `online = 1`, `in_game = 2`,
`in_studio = 3`. -/
inductive PresenceType where
  | offline
  | online
  | in_game
  | in_studio
  deriving DecidableEq, Repr

/-- The wire integer of each `PresenceType` member. -/
def PresenceType.toInt : PresenceType → Int
  | PresenceType.offline => 0
  | PresenceType.online => 1
  | PresenceType.in_game => 2
  | PresenceType.in_studio => 3

/-- Value lookup of the `IntEnum`: the member with the given integer value. -/
def PresenceType.ofInt? (v : Int) : Option PresenceType :=
  if v = 0 then some PresenceType.offline
  else if v = 1 then some PresenceType.online
  else if v = 2 then some PresenceType.in_game
  else if v = 3 then some PresenceType.in_studio
  else none

/-- Python `PresenceType(v)` on a JSON value: exact integer match (Python
`bool` is a subclass of `int`, so `False`/`True` act as `0`/`1`); any other
value raises `ValueError` (`invalidEnumValue`). -/
def PresenceType.ofJson : Json → Except MapError PresenceType
  | Json.int v =>
      match PresenceType.ofInt? v with
      | some t => Except.ok t
      | none => Except.error (MapError.invalidEnumValue (Json.int v))
  | Json.bool b =>
      Except.ok (if b then PresenceType.online else PresenceType.offline)
  | j => Except.error (MapError.invalidEnumValue j)

/-- Modelled from the spec: `BasePlace` (`src/roblox/bases/baseplace.py`, not
under `src/`) is a reference handle storing only the client context and the
identifier it was constructed with. -/
structure BasePlace (Ctx : Type) where
  client : Ctx
  place_id : Json

/-- Modelled from the spec: `BaseJob` (`src/roblox/bases/basejob.py`, not
under `src/`) stores the client context and the job identifier. -/
structure BaseJob (Ctx : Type) where
  client : Ctx
  job_id : Json

/-- Modelled from the spec: `BaseUniverse` (`src/roblox/bases/baseuniverse.py`,
not under `src/`) stores the client context and the universe identifier. -/
structure BaseUniverse (Ctx : Type) where
  client : Ctx
  universe_id : Json

/-- Modelled from the spec: `BaseUser` (`src/roblox/bases/baseuser.py`, not
under `src/`) stores the client context and the user identifier. -/
structure BaseUser (Ctx : Type) where
  client : Ctx
  id : Json

/-- Modelled from the spec: `client.get_base_user(user_id)` (defined on the
client, not under `src/`) constructs a `BaseUser` handle carrying the same
client and the given identifier, performing no I/O. -/
def get_base_user {Ctx : Type} (client : Ctx) (user_id : Json) : BaseUser Ctx :=
  { client := client, id := user_id }

/-- Modelled from the spec: `PartialUser`
(`src/roblox/partials/partialuser.py`, not under `src/`) is the partial-user
reference built from the poster object, storing the shared context and the
payload it was constructed from. -/
structure PartialUser (Ctx : Type) where
  shared : Ctx
  data : Json

/-- The `Presence` record of `presence.py`, one per payload entry. -/
structure Presence (Ctx TS : Type) where
  client : Ctx
  user_presence_type : PresenceType
  last_location : Json
  place : Option (BasePlace Ctx)
  root_place : Option (BasePlace Ctx)
  job : Option (BaseJob Ctx)
  «universe» : Option (BaseUniverse Ctx)
  user : BaseUser Ctx
  last_online : TS

/-- The uniform optional-reference rule of `Presence.__init__`:
`Ref(...) if data.get(key) else None`, the constructor receiving
`data[key]`. -/
def optRef {α : Type} (mk : Json → α) (data : Dict) (key : String) : Option α :=
  if truthy (jgetD data key) then some (mk (jgetD data key)) else none

/-- `Presence.__init__(client, data)`, statement by statement in source
order: `PresenceType(data["userPresenceType"])`, `data["lastLocation"]`, the
four optional references, `client.get_base_user(data["userId"])`, and
`parse(data["lastOnline"])`.  `p` is the abstract timestamp parser. -/
def Presence.init {Ctx TS : Type} (p : String → Option TS) (client : Ctx)
    (data : Dict) : Except MapError (Presence Ctx TS) := do
  let uptJson ← pyGetItem data "userPresenceType"
  let upt ← PresenceType.ofJson uptJson
  let lastLocation ← pyGetItem data "lastLocation"
  let place := optRef (fun v => BasePlace.mk client v) data "placeId"
  let rootPlace := optRef (fun v => BasePlace.mk client v) data "rootPlaceId"
  let job := optRef (fun v => BaseJob.mk client v) data "gameId"
  let univ := optRef (fun v => BaseUniverse.mk client v) data "universeId"
  let userIdJson ← pyGetItem data "userId"
  let user := get_base_user client userIdJson
  let lastOnlineJson ← pyGetItem data "lastOnline"
  let lastOnline ← pyParse p lastOnlineJson
  pure { client := client, user_presence_type := upt,
         last_location := lastLocation, place := place,
         root_place := rootPlace, job := job, «universe» := univ,
         user := user, last_online := lastOnline }

/-- `Presence(client=..., data=presence_data)` on an arbitrary JSON element
of the response array: a non-dict element raises `TypeError` at its first
string-keyed indexing. -/
def Presence.initJson {Ctx TS : Type} (p : String → Option TS) (client : Ctx) :
    Json → Except MapError (Presence Ctx TS)
  | Json.obj kvs => Presence.init p client kvs
  | _ => Except.error MapError.typeError

/-- The `Shout` record of `shout.py`. -/
structure Shout (Ctx TS : Type) where
  shared : Ctx
  body : Json
  created : TS
  updated : TS
  poster : PartialUser Ctx

/-- `Shout.__init__(shared, data)` in source order: `data["body"]`,
`parse(data["created"])`, `parse(data["updated"])`,
`PartialUser(shared=self._shared, data=data["poster"])`. -/
def Shout.init {Ctx TS : Type} (p : String → Option TS) (shared : Ctx)
    (data : Dict) : Except MapError (Shout Ctx TS) := do
  let body ← pyGetItem data "body"
  let createdJson ← pyGetItem data "created"
  let created ← pyParse p createdJson
  let updatedJson ← pyGetItem data "updated"
  let updated ← pyParse p updatedJson
  let posterJson ← pyGetItem data "poster"
  pure { shared := shared, body := body, created := created,
         updated := updated,
         poster := { shared := shared, data := posterJson } }

/-- An element of the `users` argument of `get_user_presences`
(`UserOrUserId`): a raw integer identifier or a user handle. -/
inductive UserInput (Ctx : Type) where
  | id : Int → UserInput Ctx
  | handle : BaseUser Ctx → UserInput Ctx

/-- Python `int(u)` on one element: a raw id is itself; a handle delegates to
`BaseUser.__int__`, modelled from the spec as returning the handle's integer
identifier (`TypeError`, i.e. `none`, when the stored identifier is not an
integer; Python `bool` counts as an integer). -/
def userToInt {Ctx : Type} : UserInput Ctx → Option Int
  | UserInput.id n => some n
  | UserInput.handle u =>
      match u.id with
      | Json.int n => some n
      | Json.bool b => some (if b then 1 else 0)
      | _ => none

/-- `list(map(int, users))`: each input normalized to an integer, in input
order; a non-normalizable element raises `TypeError`. -/
def normalizeUsers {Ctx : Type} : List (UserInput Ctx) → Except MapError (List Int)
  | [] => Except.ok []
  | u :: rest =>
      match userToInt u with
      | some n => (normalizeUsers rest).map (fun l => n :: l)
      | none => Except.error MapError.typeError

/-- The single POST request issued by `get_user_presences`: the presence
service URL (`url_generator.get_url("presence", "v1/presence/users")`,
modelled from the spec as the subdomain/path pair) and the JSON body. -/
structure PostRequest where
  subdomain : String
  path : String
  body : Json

/-- The request built by lines 106–111 of `presence.py`:
`json={"userIds": list(map(int, users))}`. -/
def presenceUsersRequest {Ctx : Type} (users : List (UserInput Ctx)) :
    Except MapError PostRequest := do
  let ids ← normalizeUsers users
  pure { subdomain := "presence", path := "v1/presence/users",
         body := Json.obj [("userIds", Json.arr (ids.map Json.int))] }

/-- The list comprehension
`[Presence(client=..., data=d) for d in presences_data]`. -/
def mapPresences {Ctx TS : Type} (p : String → Option TS) (client : Ctx) :
    List Json → Except MapError (List (Presence Ctx TS))
  | [] => Except.ok []
  | d :: rest => do
      let r ← Presence.initJson p client d
      let rs ← mapPresences p client rest
      pure (r :: rs)

/-- `PresenceProvider.get_user_presences(users)` given the transport's
response JSON: builds the one request, reads
`presences_response.json()["userPresences"]`, iterates it, and maps each
element.  The issued request is returned alongside the records; transport
errors would propagate from the external `post` collaborator and are outside
this embedding. -/
def get_user_presences {Ctx TS : Type} (p : String → Option TS) (client : Ctx)
    (users : List (UserInput Ctx)) (respJson : Json) :
    Except MapError (PostRequest × List (Presence Ctx TS)) := do
  let req ← presenceUsersRequest users
  let presencesData ← pyIndex respJson "userPresences"
  let items ← pyIter presencesData
  let rs ← mapPresences p client items
  pure (req, rs)

/-- Whether an error is a `KeyError` (the spec's `MissingRequiredField` /
`MalformedResponse`). -/
def MapError.isMissingField : MapError → Bool
  | MapError.missingField _ => true
  | _ => false

/-- Whether an error is a `dateutil` parse failure (the spec's
`MalformedTimestamp`). -/
def MapError.isMalformedTimestamp : MapError → Bool
  | MapError.malformedTimestamp _ => true
  | _ => false

/-- Whether a JSON value is an array. -/
def Json.isArr : Json → Bool
  | Json.arr _ => true
  | _ => false

/-- A concrete timestamp parser instantiating the abstract parser in
witnesses: it accepts exactly the strings `"TS1"`, `"TS2"`, `"TS3"`. -/
def natParse (s : String) : Option Nat :=
  if s = "TS1" then some 1 else if s = "TS2" then some 2
  else if s = "TS3" then some 3 else none

/-- A concrete presence payload: `placeId = 123`, `rootPlaceId = 0`,
`gameId` absent, `universeId` null. -/
def c1data : Dict :=
  [("userPresenceType", Json.int 2), ("lastLocation", Json.str "Baseplate"),
   ("placeId", Json.int 123), ("rootPlaceId", Json.int 0),
   ("universeId", Json.null), ("userId", Json.int 789),
   ("lastOnline", Json.str "TS1")]

/-- The record `Presence.__init__` builds from `c1data`. -/
def c1rec : Presence Nat Nat :=
  { client := 7, user_presence_type := PresenceType.in_game,
    last_location := Json.str "Baseplate",
    place := some (BasePlace.mk 7 (Json.int 123)), root_place := none,
    job := none, «universe» := none, user := BaseUser.mk 7 (Json.int 789),
    last_online := 1 }

/-- A concrete well-formed presence payload with `userPresenceType = 3`. -/
def c2data : Dict :=
  [("userPresenceType", Json.int 3), ("lastLocation", Json.str "studio"),
   ("userId", Json.int 5), ("lastOnline", Json.str "TS2")]

/-- A presence payload with the out-of-range `userPresenceType = 99`. -/
def c2bad : Dict := [("userPresenceType", Json.int 99)]

/-- The record `Presence.__init__` builds from `c2data`. -/
def c2rec : Presence Nat Nat :=
  { client := 7, user_presence_type := PresenceType.in_studio,
    last_location := Json.str "studio", place := none, root_place := none,
    job := none, «universe» := none, user := BaseUser.mk 7 (Json.int 5),
    last_online := 2 }

/-- A presence payload with valid `userPresenceType` and `lastLocation` but
no `userId` key. -/
def c3data : Dict :=
  [("userPresenceType", Json.int 0), ("lastLocation", Json.str "x")]

/-- A concrete `users` argument of raw integer ids. -/
def c4users : List (UserInput Nat) := [UserInput.id 1, UserInput.id 2]

/-- First presence entry of the concrete response. -/
def c4e1 : Dict :=
  [("userPresenceType", Json.int 0), ("lastLocation", Json.str "a"),
   ("userId", Json.int 1), ("lastOnline", Json.str "TS1")]

/-- Second presence entry of the concrete response. -/
def c4e2 : Dict :=
  [("userPresenceType", Json.int 1), ("lastLocation", Json.str "b"),
   ("userId", Json.int 2), ("lastOnline", Json.str "TS2")]

/-- The `userPresences` array of the concrete response, in order. -/
def c4entries : List Json := [Json.obj c4e1, Json.obj c4e2]

/-- The concrete response object. -/
def c4resp : Json := Json.obj [("userPresences", Json.arr c4entries)]

/-- The record mapped from `c4e1`. -/
def c4r1 : Presence Nat Nat :=
  { client := 9, user_presence_type := PresenceType.offline,
    last_location := Json.str "a", place := none, root_place := none,
    job := none, «universe» := none, user := BaseUser.mk 9 (Json.int 1),
    last_online := 1 }

/-- The record mapped from `c4e2`. -/
def c4r2 : Presence Nat Nat :=
  { client := 9, user_presence_type := PresenceType.online,
    last_location := Json.str "b", place := none, root_place := none,
    job := none, «universe» := none, user := BaseUser.mk 9 (Json.int 2),
    last_online := 2 }

/-- The request built for `c4users`. -/
def c4req : PostRequest :=
  { subdomain := "presence", path := "v1/presence/users",
    body := Json.obj [("userIds", Json.arr [Json.int 1, Json.int 2])] }

/-- A mixed `users` argument: a raw id and a user handle. -/
def c5users : List (UserInput Nat) :=
  [UserInput.id 5, UserInput.handle (BaseUser.mk 3 (Json.int 9))]

/-- A shout payload with `body` present, `created` unparseable, and
`updated`/`poster` absent. -/
def c6bad : Dict := [("body", Json.str "hi"), ("created", Json.str "garbage")]

/-- A fully-populated shout payload. -/
def c6data : Dict :=
  [("body", Json.str "hi"), ("created", Json.str "TS1"),
   ("updated", Json.str "TS2"),
   ("poster", Json.obj [("userId", Json.int 1), ("username", Json.str "a")])]

/-- The record `Shout.__init__` builds from `c6data`. -/
def c6shout : Shout Nat Nat :=
  { shared := 4, body := Json.str "hi", created := 1, updated := 2,
    poster := PartialUser.mk 4
      (Json.obj [("userId", Json.int 1), ("username", Json.str "a")]) }

/-- A shout payload with everything but `poster`. -/
def c6missing : Dict :=
  [("body", Json.str "hi"), ("created", Json.str "TS1"),
   ("updated", Json.str "TS2")]

/-- A presence payload whose `lastOnline` is unparseable and whose
`userPresenceType` is also invalid. -/
def c7bad : Dict :=
  [("userPresenceType", Json.int 99), ("lastLocation", Json.str "x"),
   ("userId", Json.int 1), ("lastOnline", Json.str "garbage")]

/-- A presence payload whose only defect is an unparseable `lastOnline`. -/
def c7errp : Dict :=
  [("userPresenceType", Json.int 1), ("lastLocation", Json.str "x"),
   ("userId", Json.int 2), ("lastOnline", Json.str "nope")]

/-- A well-formed presence payload with `lastOnline = "TS3"`. -/
def c7okp : Dict :=
  [("userPresenceType", Json.int 0), ("lastLocation", Json.str "y"),
   ("userId", Json.int 3), ("lastOnline", Json.str "TS3")]

/-- The record `Presence.__init__` builds from `c7okp`. -/
def c7okr : Presence Nat Nat :=
  { client := 2, user_presence_type := PresenceType.offline,
    last_location := Json.str "y", place := none, root_place := none,
    job := none, «universe» := none, user := BaseUser.mk 2 (Json.int 3),
    last_online := 3 }

/-- A presence payload exercising context injection, with one sub-reference. -/
def c9data : Dict :=
  [("userPresenceType", Json.int 2), ("lastLocation", Json.str "loc"),
   ("placeId", Json.int 44), ("userId", Json.int 8),
   ("lastOnline", Json.str "TS1")]

/-- The record `Presence.__init__` builds from `c9data` with client `5`. -/
def c9rec : Presence Nat Nat :=
  { client := 5, user_presence_type := PresenceType.in_game,
    last_location := Json.str "loc",
    place := some (BasePlace.mk 5 (Json.int 44)), root_place := none,
    job := none, «universe» := none, user := BaseUser.mk 5 (Json.int 8),
    last_online := 1 }

/-- A shout payload exercising context injection. -/
def c9sdata : Dict :=
  [("body", Json.str "s"), ("created", Json.str "TS1"),
   ("updated", Json.str "TS1"),
   ("poster", Json.obj [("userId", Json.int 2)])]

/-- The record `Shout.__init__` builds from `c9sdata` with shared object `5`. -/
def c9shout : Shout Nat Nat :=
  { shared := 5, body := Json.str "s", created := 1, updated := 1,
    poster := PartialUser.mk 5 (Json.obj [("userId", Json.int 2)]) }

/-- A presence payload whose optional identifier fields hold falsy values of
other types (`""`, `False`) and truthy non-positive / non-integer values
(`-5`, `"abc"`). -/
def c10data : Dict :=
  [("userPresenceType", Json.int 1), ("lastLocation", Json.str "z"),
   ("placeId", Json.str ""), ("rootPlaceId", Json.int (-5)),
   ("gameId", Json.bool false), ("universeId", Json.str "abc"),
   ("userId", Json.int 6), ("lastOnline", Json.str "TS2")]

/-- The record `Presence.__init__` builds from `c10data`. -/
def c10rec : Presence Nat Nat :=
  { client := 3, user_presence_type := PresenceType.online,
    last_location := Json.str "z", place := none,
    root_place := some (BasePlace.mk 3 (Json.int (-5))), job := none,
    «universe» := some (BaseUniverse.mk 3 (Json.str "abc")),
    user := BaseUser.mk 3 (Json.int 6), last_online := 2 }

/-! ### Basic lemmas -/

theorem except_ok_bind {ε α β : Type} (a : α) (f : α → Except ε β) :
    (Except.ok a >>= f) = f a := rfl

theorem except_error_bind {ε α β : Type} (e : ε) (f : α → Except ε β) :
    ((Except.error e : Except ε α) >>= f) = Except.error e := rfl

theorem except_pure_eq_ok {ε α : Type} (a : α) :
    (pure a : Except ε α) = Except.ok a := rfl

theorem except_bind_ok_iff {ε α β : Type} (x : Except ε α) (f : α → Except ε β)
    (b : β) : (x >>= f) = Except.ok b ↔ ∃ a, x = Except.ok a ∧ f a = Except.ok b := by
  cases x with
  | error e => simp [Bind.bind, Except.bind]
  | ok a => simp [Bind.bind, Except.bind]

theorem pyGetItem_some {d : Dict} {k : String} {v : Json}
    (h : d.lookup k = some v) : pyGetItem d k = Except.ok v := by
  simp [pyGetItem, h]

theorem pyGetItem_none {d : Dict} {k : String} (h : d.lookup k = none) :
    pyGetItem d k = Except.error (MapError.missingField k) := by
  simp [pyGetItem, h]

theorem pyGetItem_ok_iff {d : Dict} {k : String} {v : Json} :
    pyGetItem d k = Except.ok v ↔ d.lookup k = some v := by
  unfold pyGetItem
  cases d.lookup k <;> simp

theorem pyParse_str_some {TS : Type} {p : String → Option TS} {s : String}
    {t : TS} (h : p s = some t) : pyParse p (Json.str s) = Except.ok t := by
  simp [pyParse, h]

theorem pyParse_str_none {TS : Type} {p : String → Option TS} {s : String}
    (h : p s = none) :
    pyParse p (Json.str s) = Except.error (MapError.malformedTimestamp s) := by
  simp [pyParse, h]

theorem pyParse_ok_iff {TS : Type} {p : String → Option TS} {j : Json} {t : TS} :
    pyParse p j = Except.ok t ↔ ∃ s, j = Json.str s ∧ p s = some t := by
  cases j <;> simp only [pyParse] <;> try simp
  rename_i s
  cases hp : p s <;> simp [hp]

theorem ofJson_int_some {v : Int} {t : PresenceType}
    (h : PresenceType.ofInt? v = some t) :
    PresenceType.ofJson (Json.int v) = Except.ok t := by
  simp [PresenceType.ofJson, h]

theorem ofJson_int_none {v : Int} (h : PresenceType.ofInt? v = none) :
    PresenceType.ofJson (Json.int v) =
      Except.error (MapError.invalidEnumValue (Json.int v)) := by
  simp [PresenceType.ofJson, h]

theorem ofInt?_eq_none {v : Int} (hv : ¬(v = 0 ∨ v = 1 ∨ v = 2 ∨ v = 3)) :
    PresenceType.ofInt? v = none := by
  push_neg at hv
  simp [PresenceType.ofInt?, hv.1, hv.2.1, hv.2.2.1, hv.2.2.2]

theorem optRef_of_lookup_none {α : Type} (mk : Json → α) {d : Dict} {k : String}
    (h : d.lookup k = none) : optRef mk d k = none := by
  simp [optRef, jgetD, h, truthy]

theorem optRef_of_lookup_some {α : Type} (mk : Json → α) {d : Dict} {k : String}
    {v : Json} (h : d.lookup k = some v) :
    optRef mk d k = if truthy v then some (mk v) else none := by
  simp [optRef, jgetD, h]

/-! ### Inversion of successful construction -/

theorem presence_init_ok {Ctx TS : Type} {p : String → Option TS} {client : Ctx}
    {data : Dict} {r : Presence Ctx TS}
    (h : Presence.init p client data = Except.ok r) :
    (∃ uj, data.lookup "userPresenceType" = some uj ∧
       PresenceType.ofJson uj = Except.ok r.user_presence_type) ∧
    data.lookup "lastLocation" = some r.last_location ∧
    r.client = client ∧
    r.place = optRef (fun v => BasePlace.mk client v) data "placeId" ∧
    r.root_place = optRef (fun v => BasePlace.mk client v) data "rootPlaceId" ∧
    r.job = optRef (fun v => BaseJob.mk client v) data "gameId" ∧
    r.«universe» = optRef (fun v => BaseUniverse.mk client v) data "universeId" ∧
    (∃ uid, data.lookup "userId" = some uid ∧ r.user = get_base_user client uid) ∧
    (∃ s, data.lookup "lastOnline" = some (Json.str s) ∧ p s = some r.last_online) := by
  simp only [Presence.init, except_bind_ok_iff, pyGetItem_ok_iff, pyParse_ok_iff,
    except_pure_eq_ok, Except.ok.injEq] at h
  obtain ⟨uj, huj, upt, hupt, L, hL, uid, huid, loj, hloj, t, ⟨s, hs, hps⟩, hr⟩ := h
  subst hs
  subst hr
  exact ⟨⟨uj, huj, hupt⟩, hL, rfl, rfl, rfl, rfl, rfl, ⟨uid, huid, rfl⟩,
    ⟨s, hloj, hps⟩⟩

theorem shout_init_ok {Ctx TS : Type} {p : String → Option TS} {shared : Ctx}
    {data : Dict} {sh : Shout Ctx TS}
    (h : Shout.init p shared data = Except.ok sh) :
    data.lookup "body" = some sh.body ∧
    sh.shared = shared ∧
    (∃ cs, data.lookup "created" = some (Json.str cs) ∧ p cs = some sh.created) ∧
    (∃ us, data.lookup "updated" = some (Json.str us) ∧ p us = some sh.updated) ∧
    (∃ pj, data.lookup "poster" = some pj ∧ sh.poster = PartialUser.mk shared pj) := by
  simp only [Shout.init, except_bind_ok_iff, pyGetItem_ok_iff, pyParse_ok_iff,
    except_pure_eq_ok, Except.ok.injEq] at h
  obtain ⟨b, hb, cj, hcj, ct, ⟨cs, hcs, hpc⟩, uj, huj, ut, ⟨us, hus, hpu⟩, pj, hpj, hsh⟩ := h
  subst hcs
  subst hus
  subst hsh
  exact ⟨hb, rfl, ⟨cs, hcj, hpc⟩, ⟨us, huj, hpu⟩, ⟨pj, hpj, rfl⟩⟩

/-- Forward evaluation of `Presence.__init__` on a payload whose required
fields are all present and well-formed. -/
theorem Presence.init_eval {Ctx TS : Type} (p : String → Option TS) (client : Ctx)
    (data : Dict) {uj L uid : Json} {upt : PresenceType} {s : String} {t : TS}
    (h1 : data.lookup "userPresenceType" = some uj)
    (h2 : PresenceType.ofJson uj = Except.ok upt)
    (h3 : data.lookup "lastLocation" = some L)
    (h4 : data.lookup "userId" = some uid)
    (h5 : data.lookup "lastOnline" = some (Json.str s))
    (h6 : p s = some t) :
    Presence.init p client data = Except.ok
      { client := client, user_presence_type := upt, last_location := L,
        place := optRef (fun v => BasePlace.mk client v) data "placeId",
        root_place := optRef (fun v => BasePlace.mk client v) data "rootPlaceId",
        job := optRef (fun v => BaseJob.mk client v) data "gameId",
        «universe» := optRef (fun v => BaseUniverse.mk client v) data "universeId",
        user := get_base_user client uid, last_online := t } := by
  simp only [Presence.init, pyGetItem_some h1, except_ok_bind, h2,
    pyGetItem_some h3, pyGetItem_some h4, pyGetItem_some h5,
    pyParse_str_some h6, except_pure_eq_ok]

/-- The two-sided behaviour of one optional identifier field: falsy lookup
(`absent`/`null`/`0`) gives no reference, a positive integer gives a
reference built from the looked-up value. -/
theorem optRef_cases {α : Type} (mk : Json → α) (d : Dict) (k : String) :
    ((d.lookup k = none ∨ d.lookup k = some Json.null ∨
        d.lookup k = some (Json.int 0)) → optRef mk d k = none) ∧
    (∀ n : Int, 0 < n → d.lookup k = some (Json.int n) →
        optRef mk d k = some (mk (Json.int n))) := by
  constructor
  · rintro (h | h | h)
    · exact optRef_of_lookup_none mk h
    · simp [optRef_of_lookup_some mk h, truthy]
    · simp [optRef_of_lookup_some mk h, truthy]
  · intro n hn h
    have hne : n ≠ 0 := by omega
    simp [optRef_of_lookup_some mk h, truthy, hne]

/-- Claim C1: for each of the four optional identifier fields `placeId`,
`rootPlaceId`, `gameId`, `universeId` of a presence payload, an absent, null
or zero value yields no corresponding reference on the constructed record
(`place`, `root_place`, `job`, `universe` respectively is `none`), while a
positive integer `n` yields a reference whose stored identifier is exactly
`n`. -/
theorem presence_optional_identifier_fields {Ctx TS : Type}
    {p : String → Option TS} {client : Ctx} {data : Dict} {r : Presence Ctx TS}
    (h : Presence.init p client data = Except.ok r) :
    ((data.lookup "placeId" = none ∨ data.lookup "placeId" = some Json.null ∨
        data.lookup "placeId" = some (Json.int 0)) → r.place = none) ∧
    (∀ n : Int, 0 < n → data.lookup "placeId" = some (Json.int n) →
        r.place = some (BasePlace.mk client (Json.int n))) ∧
    ((data.lookup "rootPlaceId" = none ∨
        data.lookup "rootPlaceId" = some Json.null ∨
        data.lookup "rootPlaceId" = some (Json.int 0)) → r.root_place = none) ∧
    (∀ n : Int, 0 < n → data.lookup "rootPlaceId" = some (Json.int n) →
        r.root_place = some (BasePlace.mk client (Json.int n))) ∧
    ((data.lookup "gameId" = none ∨ data.lookup "gameId" = some Json.null ∨
        data.lookup "gameId" = some (Json.int 0)) → r.job = none) ∧
    (∀ n : Int, 0 < n → data.lookup "gameId" = some (Json.int n) →
        r.job = some (BaseJob.mk client (Json.int n))) ∧
    ((data.lookup "universeId" = none ∨
        data.lookup "universeId" = some Json.null ∨
        data.lookup "universeId" = some (Json.int 0)) → r.«universe» = none) ∧
    (∀ n : Int, 0 < n → data.lookup "universeId" = some (Json.int n) →
        r.«universe» = some (BaseUniverse.mk client (Json.int n))) := by
  obtain ⟨-, -, -, hpl, hrp, hjob, huni, -, -⟩ := presence_init_ok h
  rw [hpl, hrp, hjob, huni]
  exact ⟨(optRef_cases _ data "placeId").1, (optRef_cases _ data "placeId").2,
    (optRef_cases _ data "rootPlaceId").1, (optRef_cases _ data "rootPlaceId").2,
    (optRef_cases _ data "gameId").1, (optRef_cases _ data "gameId").2,
    (optRef_cases _ data "universeId").1, (optRef_cases _ data "universeId").2⟩

/-- Witness for C1 at the concrete payload `c1data`: construction succeeds,
`placeId = 123` yields a place reference storing `123`, while
`rootPlaceId = 0`, the absent `gameId` and the null `universeId` yield no
references. -/
theorem presence_optional_identifier_fields_witness :
    Presence.init natParse 7 c1data = Except.ok c1rec ∧
    c1rec.place = some (BasePlace.mk 7 (Json.int 123)) ∧
    c1rec.root_place = none ∧ c1rec.job = none ∧ c1rec.«universe» = none := by
  have h : Presence.init natParse 7 c1data = Except.ok c1rec := rfl
  have H := presence_optional_identifier_fields h
  exact ⟨h, H.2.1 123 (by decide) rfl, H.2.2.1 (Or.inr (Or.inr rfl)),
    H.2.2.2.2.1 (Or.inl rfl), H.2.2.2.2.2.2.1 (Or.inr (Or.inl rfl))⟩

/-- Claim C2: `userPresenceType` is mapped to `PresenceType` by exact integer
match with the table `offline = 0`, `online = 1`, `in_game = 2`,
`in_studio = 3`: on an otherwise well-formed payload, a value in
`{0, 1, 2, 3}` yields the matching variant, and any integer outside
`{0, 1, 2, 3}` makes construction fail with `InvalidEnumValue` (on every
payload, never clamped or defaulted). -/
theorem presence_type_exact_mapping {Ctx TS : Type}
    (p : String → Option TS) (client : Ctx) (data : Dict) :
    PresenceType.ofInt? 0 = some PresenceType.offline ∧
    PresenceType.ofInt? 1 = some PresenceType.online ∧
    PresenceType.ofInt? 2 = some PresenceType.in_game ∧
    PresenceType.ofInt? 3 = some PresenceType.in_studio ∧
    (∀ (v : Int) (t : PresenceType) (L uid : Json) (s : String) (ts : TS),
        data.lookup "userPresenceType" = some (Json.int v) →
        PresenceType.ofInt? v = some t →
        data.lookup "lastLocation" = some L →
        data.lookup "userId" = some uid →
        data.lookup "lastOnline" = some (Json.str s) →
        p s = some ts →
        Presence.init p client data = Except.ok
          { client := client, user_presence_type := t, last_location := L,
            place := optRef (fun w => BasePlace.mk client w) data "placeId",
            root_place := optRef (fun w => BasePlace.mk client w) data "rootPlaceId",
            job := optRef (fun w => BaseJob.mk client w) data "gameId",
            «universe» := optRef (fun w => BaseUniverse.mk client w) data "universeId",
            user := get_base_user client uid, last_online := ts }) ∧
    (∀ v : Int, data.lookup "userPresenceType" = some (Json.int v) →
        ¬(v = 0 ∨ v = 1 ∨ v = 2 ∨ v = 3) →
        Presence.init p client data =
          Except.error (MapError.invalidEnumValue (Json.int v))) := by
  refine ⟨rfl, rfl, rfl, rfl, ?_, ?_⟩
  · intro v t L uid s ts h1 h2 h3 h4 h5 h6
    exact Presence.init_eval p client data h1 (ofJson_int_some h2) h3 h4 h5 h6
  · intro v h1 hv
    simp only [Presence.init, pyGetItem_some h1, except_ok_bind,
      ofJson_int_none (ofInt?_eq_none hv), except_error_bind]

/-- Witness for C2: on the concrete payload `c2data`, `userPresenceType = 3`
maps to `in_studio`; on `c2bad`, the out-of-range `99` fails with
`InvalidEnumValue(99)`. -/
theorem presence_type_exact_mapping_witness :
    Presence.init natParse 7 c2data = Except.ok c2rec ∧
    c2rec.user_presence_type = PresenceType.in_studio ∧
    Presence.init natParse 7 c2bad =
      Except.error (MapError.invalidEnumValue (Json.int 99)) := by
  have H1 := (presence_type_exact_mapping natParse 7 c2data).2.2.2.2.1
    3 PresenceType.in_studio (Json.str "studio") (Json.int 5) "TS2" 2
    rfl rfl rfl rfl rfl rfl
  have H2 := (presence_type_exact_mapping natParse (7 : Nat) c2bad).2.2.2.2.2
    99 rfl (by decide)
  exact ⟨H1.trans rfl, rfl, H2⟩

/-- Claim C3 counterexample: on the empty payload the `userId` key is absent,
yet construction fails with the `KeyError` naming `userPresenceType` — not
one naming `userId` — because `userPresenceType` is read first. -/
theorem presence_missing_userId_counterexample :
    Dict.lookup ([] : Dict) "userId" = none ∧
    Presence.init natParse (0 : Nat) ([] : Dict) =
      Except.error (MapError.missingField "userPresenceType") ∧
    MapError.missingField "userPresenceType" ≠ MapError.missingField "userId" := by
  refine ⟨rfl, rfl, ?_⟩
  intro hc
  injection hc with hs
  exact absurd hs (by decide)

/-- Claim C3 (amended): a presence payload without the `userId` key never
yields a record (in particular never one with a null user); the error is the
`KeyError`/`MissingRequiredField` naming `userId` provided the fields read
before it (`userPresenceType`, valid; `lastLocation`, present) raise no
earlier error. -/
theorem presence_missing_userId {Ctx TS : Type} (p : String → Option TS)
    (client : Ctx) (data : Dict) (h : data.lookup "userId" = none) :
    (∀ r : Presence Ctx TS, Presence.init p client data ≠ Except.ok r) ∧
    (∀ (uj L : Json) (t : PresenceType),
        data.lookup "userPresenceType" = some uj →
        PresenceType.ofJson uj = Except.ok t →
        data.lookup "lastLocation" = some L →
        Presence.init p client data =
          Except.error (MapError.missingField "userId")) := by
  constructor
  · intro r hr
    obtain ⟨-, -, -, -, -, -, -, ⟨uid, huid, -⟩, -⟩ := presence_init_ok hr
    rw [h] at huid
    exact Option.noConfusion huid
  · intro uj L t h1 h2 h3
    simp only [Presence.init, pyGetItem_some h1, except_ok_bind, h2,
      pyGetItem_some h3, pyGetItem_none h, except_error_bind]

/-- Witness for the amended C3: on the concrete payload `c3data` (valid
presence type, `lastLocation` present, `userId` absent) construction fails
with the error naming `userId`. -/
theorem presence_missing_userId_witness :
    Presence.init natParse (0 : Nat) c3data =
      Except.error (MapError.missingField "userId") :=
  (presence_missing_userId natParse 0 c3data rfl).2 (Json.int 0) (Json.str "x")
    PresenceType.offline rfl rfl rfl

theorem except_map_ok_iff {ε α β : Type} (f : α → β) (x : Except ε α) (b : β) :
    Except.map f x = Except.ok b ↔ ∃ a, x = Except.ok a ∧ f a = b := by
  cases x <;> simp [Except.map]

theorem mapPresences_ok_length {Ctx TS : Type} {p : String → Option TS}
    {client : Ctx} {l : List Json} {rs : List (Presence Ctx TS)}
    (h : mapPresences p client l = Except.ok rs) : rs.length = l.length := by
  induction l generalizing rs with
  | nil =>
    simp only [mapPresences, Except.ok.injEq] at h
    subst h
    rfl
  | cons d rest ih =>
    simp only [mapPresences, except_bind_ok_iff, except_pure_eq_ok,
      Except.ok.injEq] at h
    obtain ⟨r, -, rs2, hrs2, hcons⟩ := h
    subst hcons
    simp [ih hrs2]

theorem mapPresences_ok_get {Ctx TS : Type} {p : String → Option TS}
    {client : Ctx} {l : List Json} {rs : List (Presence Ctx TS)}
    (h : mapPresences p client l = Except.ok rs) :
    ∀ (i : Nat) (hi : i < l.length) (hi2 : i < rs.length),
      Presence.initJson p client (l.get ⟨i, hi⟩) = Except.ok (rs.get ⟨i, hi2⟩) := by
  induction l generalizing rs with
  | nil =>
    intro i hi
    exact absurd hi (by simp)
  | cons d rest ih =>
    simp only [mapPresences, except_bind_ok_iff, except_pure_eq_ok,
      Except.ok.injEq] at h
    obtain ⟨r, hr, rs2, hrs2, hcons⟩ := h
    subst hcons
    intro i hi hi2
    cases i with
    | zero => exact hr
    | succ i => exact ih hrs2 i (Nat.lt_of_succ_lt_succ hi) (Nat.lt_of_succ_lt_succ hi2)

/-- Claim C4: when the response object stores under `userPresences` an array
of entries that all map successfully, `get_user_presences` succeeds with
exactly one record per entry, the i-th record being the mapping of the i-th
entry — response-array order preserved, nothing skipped. -/
theorem get_user_presences_preserves_order {Ctx TS : Type}
    (p : String → Option TS) (client : Ctx) (users : List (UserInput Ctx))
    (req : PostRequest) (kvs : Dict) (l : List Json)
    (rs : List (Presence Ctx TS))
    (hreq : presenceUsersRequest users = Except.ok req)
    (hresp : kvs.lookup "userPresences" = some (Json.arr l))
    (hmap : mapPresences p client l = Except.ok rs) :
    get_user_presences p client users (Json.obj kvs) = Except.ok (req, rs) ∧
    rs.length = l.length ∧
    ∀ (i : Nat) (hi : i < l.length) (hi2 : i < rs.length),
      Presence.initJson p client (l.get ⟨i, hi⟩) = Except.ok (rs.get ⟨i, hi2⟩) := by
  refine ⟨?_, mapPresences_ok_length hmap, mapPresences_ok_get hmap⟩
  simp only [get_user_presences, hreq, except_ok_bind, pyIndex,
    pyGetItem_some hresp, pyIter, hmap, except_pure_eq_ok]

/-- Witness for C4: the concrete two-entry response maps to exactly the two
records `c4r1`, `c4r2`, in response order. -/
theorem get_user_presences_preserves_order_witness :
    get_user_presences natParse 9 c4users c4resp = Except.ok (c4req, [c4r1, c4r2]) ∧
    ([c4r1, c4r2] : List (Presence Nat Nat)).length = c4entries.length := by
  have H := get_user_presences_preserves_order natParse 9 c4users c4req
    [("userPresences", Json.arr c4entries)] c4entries [c4r1, c4r2] rfl rfl rfl
  exact ⟨H.1, H.2.1⟩

theorem normalizeUsers_ok_length {Ctx : Type} {users : List (UserInput Ctx)}
    {ids : List Int} (h : normalizeUsers users = Except.ok ids) :
    ids.length = users.length := by
  induction users generalizing ids with
  | nil =>
    simp only [normalizeUsers, Except.ok.injEq] at h
    subst h
    rfl
  | cons u rest ih =>
    simp only [normalizeUsers] at h
    cases hu : userToInt u with
    | none => rw [hu] at h; exact Except.noConfusion h
    | some n =>
      rw [hu, except_map_ok_iff] at h
      obtain ⟨ids2, hids2, hcons⟩ := h
      subst hcons
      simp [ih hids2]

theorem normalizeUsers_ok_get {Ctx : Type} {users : List (UserInput Ctx)}
    {ids : List Int} (h : normalizeUsers users = Except.ok ids) :
    ∀ (i : Nat) (hi : i < users.length) (hi2 : i < ids.length),
      userToInt (users.get ⟨i, hi⟩) = some (ids.get ⟨i, hi2⟩) := by
  induction users generalizing ids with
  | nil =>
    intro i hi
    exact absurd hi (by simp)
  | cons u rest ih =>
    simp only [normalizeUsers] at h
    cases hu : userToInt u with
    | none => rw [hu] at h; exact Except.noConfusion h
    | some n =>
      rw [hu, except_map_ok_iff] at h
      obtain ⟨ids2, hids2, hcons⟩ := h
      subst hcons
      intro i hi hi2
      cases i with
      | zero => exact hu
      | succ i => exact ih hids2 i (Nat.lt_of_succ_lt_succ hi) (Nat.lt_of_succ_lt_succ hi2)

/-- Claim C5: for every input collection of users (raw ids or handles,
including the empty collection), the single POST request of
`get_user_presences` targets the presence service with JSON body
`{"userIds": l}`, `l` being the inputs normalized to integers in input
order; the empty collection is not rejected and yields the body
`{"userIds": []}`. -/
theorem presence_request_shape {Ctx : Type} (users : List (UserInput Ctx))
    (ids : List Int) (h : normalizeUsers users = Except.ok ids) :
    presenceUsersRequest users = Except.ok
      { subdomain := "presence", path := "v1/presence/users",
        body := Json.obj [("userIds", Json.arr (ids.map Json.int))] } ∧
    ids.length = users.length ∧
    (∀ (i : Nat) (hi : i < users.length) (hi2 : i < ids.length),
        userToInt (users.get ⟨i, hi⟩) = some (ids.get ⟨i, hi2⟩)) ∧
    presenceUsersRequest ([] : List (UserInput Ctx)) = Except.ok
      { subdomain := "presence", path := "v1/presence/users",
        body := Json.obj [("userIds", Json.arr [])] } := by
  refine ⟨?_, normalizeUsers_ok_length h, normalizeUsers_ok_get h, rfl⟩
  simp only [presenceUsersRequest, h, except_ok_bind, except_pure_eq_ok]

/-- Witness for C5: the mixed collection `c5users` (raw id 5, handle with id
9) yields the body `{"userIds": [5, 9]}`, and the empty collection yields
`{"userIds": []}`. -/
theorem presence_request_shape_witness :
    presenceUsersRequest c5users = Except.ok
      { subdomain := "presence", path := "v1/presence/users",
        body := Json.obj [("userIds", Json.arr [Json.int 5, Json.int 9])] } ∧
    presenceUsersRequest ([] : List (UserInput Nat)) = Except.ok
      { subdomain := "presence", path := "v1/presence/users",
        body := Json.obj [("userIds", Json.arr [])] } := by
  have H := presence_request_shape c5users [5, 9] rfl
  exact ⟨H.1, H.2.2.2⟩

/-- Claim C6 counterexample: the payload `c6bad` lacks two of the four
required shout fields (`updated`, `poster`), yet construction fails with
`MalformedTimestamp` on the earlier-read `created` string — not with any
`MissingRequiredField`. -/
theorem shout_required_fields_counterexample :
    Dict.lookup c6bad "updated" = none ∧
    Dict.lookup c6bad "poster" = none ∧
    Shout.init natParse (4 : Nat) c6bad =
      Except.error (MapError.malformedTimestamp "garbage") ∧
    (MapError.malformedTimestamp "garbage").isMissingField = false :=
  ⟨rfl, rfl, rfl, rfl⟩

/-- Claim C6 (amended): a shout payload carrying all of `body`, `created`,
`updated`, `poster` whose two timestamp strings parse yields the record with
that body, the parsed timestamps, and a poster reference built from the
poster object with the same shared context.  If any of the four fields is
absent, construction never succeeds; the error is the `MissingRequiredField`
naming the first absent field in read order (`body`, `created`, `updated`,
`poster`) provided every timestamp field read before it parses. -/
theorem shout_required_fields {Ctx TS : Type} (p : String → Option TS)
    (shared : Ctx) (data : Dict) :
    (∀ (b pj : Json) (cs us : String) (ct ut : TS),
        data.lookup "body" = some b →
        data.lookup "created" = some (Json.str cs) → p cs = some ct →
        data.lookup "updated" = some (Json.str us) → p us = some ut →
        data.lookup "poster" = some pj →
        Shout.init p shared data = Except.ok
          { shared := shared, body := b, created := ct, updated := ut,
            poster := PartialUser.mk shared pj }) ∧
    ((data.lookup "body" = none ∨ data.lookup "created" = none ∨
        data.lookup "updated" = none ∨ data.lookup "poster" = none) →
      ∀ sh : Shout Ctx TS, Shout.init p shared data ≠ Except.ok sh) ∧
    (data.lookup "body" = none →
        Shout.init p shared data = Except.error (MapError.missingField "body")) ∧
    (∀ b : Json, data.lookup "body" = some b → data.lookup "created" = none →
        Shout.init p shared data = Except.error (MapError.missingField "created")) ∧
    (∀ (b : Json) (cs : String) (ct : TS), data.lookup "body" = some b →
        data.lookup "created" = some (Json.str cs) → p cs = some ct →
        data.lookup "updated" = none →
        Shout.init p shared data = Except.error (MapError.missingField "updated")) ∧
    (∀ (b : Json) (cs us : String) (ct ut : TS), data.lookup "body" = some b →
        data.lookup "created" = some (Json.str cs) → p cs = some ct →
        data.lookup "updated" = some (Json.str us) → p us = some ut →
        data.lookup "poster" = none →
        Shout.init p shared data = Except.error (MapError.missingField "poster")) := by
  refine ⟨?_, ?_, ?_, ?_, ?_, ?_⟩
  · intro b pj cs us ct ut hb hc hpc hu hpu hp
    simp only [Shout.init, pyGetItem_some hb, except_ok_bind, pyGetItem_some hc,
      pyParse_str_some hpc, pyGetItem_some hu, pyParse_str_some hpu,
      pyGetItem_some hp, except_pure_eq_ok]
  · intro habs sh hsh
    obtain ⟨hb, -, ⟨cs, hcj, -⟩, ⟨us, huj, -⟩, ⟨pj, hpj, -⟩⟩ := shout_init_ok hsh
    rcases habs with h | h | h | h
    · rw [h] at hb; exact Option.noConfusion hb
    · rw [h] at hcj; exact Option.noConfusion hcj
    · rw [h] at huj; exact Option.noConfusion huj
    · rw [h] at hpj; exact Option.noConfusion hpj
  · intro hb
    simp only [Shout.init, pyGetItem_none hb, except_error_bind]
  · intro b hb hc
    simp only [Shout.init, pyGetItem_some hb, except_ok_bind,
      pyGetItem_none hc, except_error_bind]
  · intro b cs ct hb hc hpc hu
    simp only [Shout.init, pyGetItem_some hb, except_ok_bind, pyGetItem_some hc,
      pyParse_str_some hpc, pyGetItem_none hu, except_error_bind]
  · intro b cs us ct ut hb hc hpc hu hpu hp
    simp only [Shout.init, pyGetItem_some hb, except_ok_bind, pyGetItem_some hc,
      pyParse_str_some hpc, pyGetItem_some hu, pyParse_str_some hpu,
      pyGetItem_none hp, except_error_bind]

/-- Witness for the amended C6: the fully-populated payload `c6data` maps to
`c6shout`, and the payload `c6missing` (only `poster` absent, timestamps
parseable) fails naming `poster`. -/
theorem shout_required_fields_witness :
    Shout.init natParse (4 : Nat) c6data = Except.ok c6shout ∧
    Shout.init natParse (4 : Nat) c6missing =
      Except.error (MapError.missingField "poster") := by
  have H1 := (shout_required_fields natParse (4 : Nat) c6data).1
    (Json.str "hi")
    (Json.obj [("userId", Json.int 1), ("username", Json.str "a")])
    "TS1" "TS2" 1 2 rfl rfl rfl rfl rfl rfl
  have H2 := (shout_required_fields natParse (4 : Nat) c6missing).2.2.2.2.2
    (Json.str "hi") "TS1" "TS2" 1 2 rfl rfl rfl rfl rfl rfl
  exact ⟨H1.trans rfl, H2⟩

/-- Claim C7 counterexample: the payload `c7bad` has the unparseable
timestamp string `"garbage"` under `lastOnline`, yet construction fails with
`InvalidEnumValue(99)` from the earlier-read `userPresenceType` — not with a
`MalformedTimestamp`. -/
theorem timestamp_errors_counterexample :
    natParse "garbage" = none ∧
    Dict.lookup c7bad "lastOnline" = some (Json.str "garbage") ∧
    Presence.init natParse (0 : Nat) c7bad =
      Except.error (MapError.invalidEnumValue (Json.int 99)) ∧
    (MapError.invalidEnumValue (Json.int 99)).isMalformedTimestamp = false :=
  ⟨rfl, rfl, rfl, rfl⟩

/-- Claim C7 (amended): a presence or shout payload holding an unparseable
timestamp string never constructs a record, and the error is the
`MalformedTimestamp` naming that string provided the fields read before it
raise no earlier error; a parseable timestamp string is stored exactly as
the parser returns it, with no further transformation (hence whatever
offset/zone information the parser preserves is preserved). -/
theorem timestamp_parse_behaviour {Ctx TS : Type} (p : String → Option TS)
    (client : Ctx) (pdata sdata : Dict) :
    (∀ s, pdata.lookup "lastOnline" = some (Json.str s) → p s = none →
        ∀ r : Presence Ctx TS, Presence.init p client pdata ≠ Except.ok r) ∧
    (∀ (uj L uid : Json) (t : PresenceType) (s : String),
        pdata.lookup "userPresenceType" = some uj →
        PresenceType.ofJson uj = Except.ok t →
        pdata.lookup "lastLocation" = some L →
        pdata.lookup "userId" = some uid →
        pdata.lookup "lastOnline" = some (Json.str s) → p s = none →
        Presence.init p client pdata =
          Except.error (MapError.malformedTimestamp s)) ∧
    (∀ (r : Presence Ctx TS) (s : String) (t : TS),
        pdata.lookup "lastOnline" = some (Json.str s) → p s = some t →
        Presence.init p client pdata = Except.ok r → r.last_online = t) ∧
    (∀ (b : Json) (s : String), sdata.lookup "body" = some b →
        sdata.lookup "created" = some (Json.str s) → p s = none →
        Shout.init p client sdata =
          Except.error (MapError.malformedTimestamp s)) ∧
    (∀ (b : Json) (cs us : String) (ct : TS), sdata.lookup "body" = some b →
        sdata.lookup "created" = some (Json.str cs) → p cs = some ct →
        sdata.lookup "updated" = some (Json.str us) → p us = none →
        Shout.init p client sdata =
          Except.error (MapError.malformedTimestamp us)) ∧
    (∀ s, sdata.lookup "created" = some (Json.str s) → p s = none →
        ∀ sh : Shout Ctx TS, Shout.init p client sdata ≠ Except.ok sh) ∧
    (∀ s, sdata.lookup "updated" = some (Json.str s) → p s = none →
        ∀ sh : Shout Ctx TS, Shout.init p client sdata ≠ Except.ok sh) ∧
    (∀ (sh : Shout Ctx TS) (cs us : String) (ct ut : TS),
        sdata.lookup "created" = some (Json.str cs) → p cs = some ct →
        sdata.lookup "updated" = some (Json.str us) → p us = some ut →
        Shout.init p client sdata = Except.ok sh →
        sh.created = ct ∧ sh.updated = ut) := by
  refine ⟨?_, ?_, ?_, ?_, ?_, ?_, ?_, ?_⟩
  · intro s hs hnone r hr
    obtain ⟨-, -, -, -, -, -, -, -, ⟨s2, hs2, hps2⟩⟩ := presence_init_ok hr
    rw [hs] at hs2
    injection hs2 with h3
    injection h3 with h4
    subst h4
    rw [hnone] at hps2
    exact Option.noConfusion hps2
  · intro uj L uid t s h1 h2 h3 h4 h5 h6
    simp only [Presence.init, pyGetItem_some h1, except_ok_bind, h2,
      pyGetItem_some h3, pyGetItem_some h4, pyGetItem_some h5,
      pyParse_str_none h6, except_error_bind]
  · intro r s t hs hp hr
    obtain ⟨-, -, -, -, -, -, -, -, ⟨s2, hs2, hps2⟩⟩ := presence_init_ok hr
    rw [hs] at hs2
    injection hs2 with h3
    injection h3 with h4
    subst h4
    rw [hp] at hps2
    exact (Option.some.inj hps2).symm
  · intro b s hb hc hnone
    simp only [Shout.init, pyGetItem_some hb, except_ok_bind, pyGetItem_some hc,
      pyParse_str_none hnone, except_error_bind]
  · intro b cs us ct hb hc hpc hu hnone
    simp only [Shout.init, pyGetItem_some hb, except_ok_bind, pyGetItem_some hc,
      pyParse_str_some hpc, pyGetItem_some hu, pyParse_str_none hnone,
      except_error_bind]
  · intro s hs hnone sh hsh
    obtain ⟨-, -, ⟨cs, hcs, hpc⟩, -, -⟩ := shout_init_ok hsh
    rw [hs] at hcs
    injection hcs with h3
    injection h3 with h4
    subst h4
    rw [hnone] at hpc
    exact Option.noConfusion hpc
  · intro s hs hnone sh hsh
    obtain ⟨-, -, -, ⟨us, hus, hpu⟩, -⟩ := shout_init_ok hsh
    rw [hs] at hus
    injection hus with h3
    injection h3 with h4
    subst h4
    rw [hnone] at hpu
    exact Option.noConfusion hpu
  · intro sh cs us ct ut hc hpc hu hpu hsh
    obtain ⟨-, -, ⟨cs2, hcs2, hpc2⟩, ⟨us2, hus2, hpu2⟩, -⟩ := shout_init_ok hsh
    constructor
    · rw [hc] at hcs2
      injection hcs2 with h3
      injection h3 with h4
      subst h4
      rw [hpc] at hpc2
      exact (Option.some.inj hpc2).symm
    · rw [hu] at hus2
      injection hus2 with h3
      injection h3 with h4
      subst h4
      rw [hpu] at hpu2
      exact (Option.some.inj hpu2).symm

/-- Witness for the amended C7: on `c7errp` (only defect: unparseable
`lastOnline = "nope"`) construction fails with `MalformedTimestamp("nope")`;
on the well-formed `c7okp` the stored `last_online` equals the parser's
output `3` for `"TS3"`; on a shout payload with unparseable `created`,
construction fails with `MalformedTimestamp`. -/
theorem timestamp_parse_behaviour_witness :
    Presence.init natParse (2 : Nat) c7errp =
      Except.error (MapError.malformedTimestamp "nope") ∧
    c7okr.last_online = 3 ∧
    Shout.init natParse (2 : Nat) [("body", Json.str "b"), ("created", Json.str "zzz")] =
      Except.error (MapError.malformedTimestamp "zzz") := by
  have H1 := (timestamp_parse_behaviour natParse (2 : Nat) c7errp ([] : Dict)).2.1
    (Json.int 1) (Json.str "x") (Json.int 2) PresenceType.online "nope"
    rfl rfl rfl rfl rfl rfl
  have H2 := (timestamp_parse_behaviour natParse (2 : Nat) c7okp ([] : Dict)).2.2.1
    c7okr "TS3" 3 rfl rfl rfl
  have H3 := (timestamp_parse_behaviour natParse (2 : Nat) ([] : Dict)
      [("body", Json.str "b"), ("created", Json.str "zzz")]).2.2.2.1
    (Json.str "b") "zzz" rfl rfl rfl
  exact ⟨H1, H2, H3⟩

/-- Claim C8 counterexample: on a response whose `userPresences` value is the
non-array `""`, `get_user_presences` does not fail at all — Python iterates
the empty string and the call returns the empty record list. -/
theorem malformed_response_counterexample :
    (Json.str "").isArr = false ∧
    get_user_presences natParse (0 : Nat) ([] : List (UserInput Nat))
        (Json.obj [("userPresences", Json.str "")]) =
      Except.ok
        ({ subdomain := "presence", path := "v1/presence/users",
           body := Json.obj [("userIds", Json.arr [])] },
         ([] : List (Presence Nat Nat))) :=
  ⟨rfl, rfl⟩

/-- Claim C8 (amended): a response object without the `userPresences` key
fails with the `KeyError` naming `userPresences` (the spec's
`MalformedResponse`) and returns no partial result, and a non-iterable
`userPresences` value (`null`, boolean, integer) or a non-object response
raises `TypeError`; but a non-array value is not in general an error —
string and object values are iterated like any Python iterable (an empty
string yields the empty record list). -/
theorem get_user_presences_malformed_response {Ctx TS : Type}
    (p : String → Option TS) (client : Ctx) (users : List (UserInput Ctx))
    (req : PostRequest) (hreq : presenceUsersRequest users = Except.ok req) :
    (∀ kvs : Dict, kvs.lookup "userPresences" = none →
        get_user_presences p client users (Json.obj kvs) =
          (Except.error (MapError.missingField "userPresences") :
            Except MapError (PostRequest × List (Presence Ctx TS)))) ∧
    (∀ (kvs : Dict) (v : Json), kvs.lookup "userPresences" = some v →
        (v = Json.null ∨ (∃ b, v = Json.bool b) ∨ (∃ n, v = Json.int n)) →
        get_user_presences p client users (Json.obj kvs) =
          (Except.error MapError.typeError :
            Except MapError (PostRequest × List (Presence Ctx TS)))) ∧
    (∀ resp : Json, (∀ kvs : Dict, resp ≠ Json.obj kvs) →
        get_user_presences p client users resp =
          (Except.error MapError.typeError :
            Except MapError (PostRequest × List (Presence Ctx TS)))) := by
  refine ⟨?_, ?_, ?_⟩
  · intro kvs hk
    simp only [get_user_presences, hreq, except_ok_bind, pyIndex,
      pyGetItem_none hk, except_error_bind]
  · intro kvs v hk hv
    rcases hv with rfl | ⟨b, rfl⟩ | ⟨n, rfl⟩ <;>
      simp only [get_user_presences, hreq, except_ok_bind, pyIndex,
        pyGetItem_some hk, pyIter, except_error_bind]
  · intro resp hresp
    cases resp with
    | obj kvs => exact absurd rfl (hresp kvs)
    | null =>
      simp only [get_user_presences, hreq, except_ok_bind, pyIndex,
        except_error_bind]
    | bool b =>
      simp only [get_user_presences, hreq, except_ok_bind, pyIndex,
        except_error_bind]
    | int n =>
      simp only [get_user_presences, hreq, except_ok_bind, pyIndex,
        except_error_bind]
    | str s =>
      simp only [get_user_presences, hreq, except_ok_bind, pyIndex,
        except_error_bind]
    | arr l =>
      simp only [get_user_presences, hreq, except_ok_bind, pyIndex,
        except_error_bind]

/-- Witness for the amended C8: a response object without `userPresences`
fails naming `userPresences`; a null `userPresences` raises `TypeError`. -/
theorem get_user_presences_malformed_response_witness :
    get_user_presences natParse (0 : Nat) ([] : List (UserInput Nat))
        (Json.obj []) =
      Except.error (MapError.missingField "userPresences") ∧
    get_user_presences natParse (0 : Nat) ([] : List (UserInput Nat))
        (Json.obj [("userPresences", Json.null)]) =
      Except.error MapError.typeError := by
  have H := get_user_presences_malformed_response natParse (0 : Nat)
    ([] : List (UserInput Nat))
    { subdomain := "presence", path := "v1/presence/users",
      body := Json.obj [("userIds", Json.arr [])] } rfl
  exact ⟨H.1 [] rfl, H.2.1 [("userPresences", Json.null)] Json.null rfl (Or.inl rfl)⟩

/-- Claim C9: a constructed `Presence` or `Shout` record stores exactly the
context object passed to its constructor and injects that same context,
unchanged, into every sub-reference it builds (`user`, `place`,
`root_place`, `job`, `universe`, `poster`).  The context type `Ctx` is
abstract and the context is a plain parameter, so no ambient or global state
can be involved. -/
theorem context_injection {Ctx TS : Type} (p : String → Option TS)
    (client shared : Ctx) (pdata sdata : Dict) :
    (∀ r : Presence Ctx TS, Presence.init p client pdata = Except.ok r →
        r.client = client ∧ r.user.client = client ∧
        (∀ x, r.place = some x → x.client = client) ∧
        (∀ x, r.root_place = some x → x.client = client) ∧
        (∀ x, r.job = some x → x.client = client) ∧
        (∀ x, r.«universe» = some x → x.client = client)) ∧
    (∀ sh : Shout Ctx TS, Shout.init p shared sdata = Except.ok sh →
        sh.shared = shared ∧ sh.poster.shared = shared) := by
  constructor
  · intro r hr
    obtain ⟨-, -, hcl, hpl, hrp, hjob, huni, ⟨uid, -, huser⟩, -⟩ :=
      presence_init_ok hr
    refine ⟨hcl, ?_, ?_, ?_, ?_, ?_⟩
    · rw [huser]; rfl
    · intro x hx
      rw [hpl] at hx
      unfold optRef at hx
      split at hx
      · injection hx with hx2; subst hx2; rfl
      · exact Option.noConfusion hx
    · intro x hx
      rw [hrp] at hx
      unfold optRef at hx
      split at hx
      · injection hx with hx2; subst hx2; rfl
      · exact Option.noConfusion hx
    · intro x hx
      rw [hjob] at hx
      unfold optRef at hx
      split at hx
      · injection hx with hx2; subst hx2; rfl
      · exact Option.noConfusion hx
    · intro x hx
      rw [huni] at hx
      unfold optRef at hx
      split at hx
      · injection hx with hx2; subst hx2; rfl
      · exact Option.noConfusion hx
  · intro sh hsh
    obtain ⟨-, hshc, -, -, ⟨pj, -, hposter⟩⟩ := shout_init_ok hsh
    refine ⟨hshc, ?_⟩
    rw [hposter]

/-- Witness for C9: with client/shared object `5`, the records built from
`c9data` and `c9sdata` store `5` and inject `5` into their user, place and
poster references. -/
theorem context_injection_witness :
    c9rec.client = 5 ∧ c9rec.user.client = 5 ∧
    (BasePlace.mk 5 (Json.int 44)).client = 5 ∧
    c9shout.shared = 5 ∧ c9shout.poster.shared = 5 := by
  have H := (context_injection natParse (5 : Nat) 5 c9data c9sdata).1 c9rec rfl
  have H2 := (context_injection natParse (5 : Nat) 5 c9data c9sdata).2 c9shout rfl
  exact ⟨H.1, H.2.1, H.2.2.1 (BasePlace.mk 5 (Json.int 44)) rfl, H2.1, H2.2⟩

/-- Claim C10: the no-reference test on the four optional identifier fields
is Python truthiness of the stored value, not membership in
`{absent, null, 0}` and not positivity: any falsy value of another type
(`False`, `""`) yields no reference, and any truthy value — in particular
any negative integer `n` — yields a reference storing that value exactly. -/
theorem optional_ids_truthiness {Ctx TS : Type} {p : String → Option TS}
    {client : Ctx} {data : Dict} {r : Presence Ctx TS}
    (h : Presence.init p client data = Except.ok r) :
    (∀ v, data.lookup "placeId" = some v →
        r.place = if truthy v then some (BasePlace.mk client v) else none) ∧
    (∀ v, data.lookup "rootPlaceId" = some v →
        r.root_place = if truthy v then some (BasePlace.mk client v) else none) ∧
    (∀ v, data.lookup "gameId" = some v →
        r.job = if truthy v then some (BaseJob.mk client v) else none) ∧
    (∀ v, data.lookup "universeId" = some v →
        r.«universe» = if truthy v then some (BaseUniverse.mk client v) else none) ∧
    ((data.lookup "placeId" = some (Json.bool false) ∨
        data.lookup "placeId" = some (Json.str "")) → r.place = none) ∧
    (∀ n : Int, n < 0 → data.lookup "placeId" = some (Json.int n) →
        r.place = some (BasePlace.mk client (Json.int n))) := by
  obtain ⟨-, -, -, hpl, hrp, hjob, huni, -, -⟩ := presence_init_ok h
  refine ⟨?_, ?_, ?_, ?_, ?_, ?_⟩
  · intro v hv; rw [hpl, optRef_of_lookup_some _ hv]
  · intro v hv; rw [hrp, optRef_of_lookup_some _ hv]
  · intro v hv; rw [hjob, optRef_of_lookup_some _ hv]
  · intro v hv; rw [huni, optRef_of_lookup_some _ hv]
  · rintro (hv | hv) <;> simp [hpl, optRef_of_lookup_some _ hv, truthy]
  · intro n hn hv
    have hne : n ≠ 0 := by omega
    simp [hpl, optRef_of_lookup_some _ hv, truthy, hne]

/-- Witness for C10 on `c10data`: the falsy `""` (placeId) and `False`
(gameId) yield no references, while the negative `-5` (rootPlaceId) and the
truthy string `"abc"` (universeId) yield references storing those values. -/
theorem optional_ids_truthiness_witness :
    Presence.init natParse 3 c10data = Except.ok c10rec ∧
    c10rec.place = none ∧
    c10rec.root_place = some (BasePlace.mk 3 (Json.int (-5))) ∧
    c10rec.job = none ∧
    c10rec.«universe» = some (BaseUniverse.mk 3 (Json.str "abc")) := by
  have h : Presence.init natParse 3 c10data = Except.ok c10rec := rfl
  have H := optional_ids_truthiness h
  refine ⟨h, H.2.2.2.2.1 (Or.inr rfl),
    (H.2.1 (Json.int (-5)) rfl).trans (by simp [truthy]),
    (H.2.2.1 (Json.bool false) rfl).trans rfl,
    (H.2.2.2.1 (Json.str "abc") rfl).trans (by simp [truthy])⟩
